import Mathlib

/-!
Shallow embedding of the Usage-Gated Generation Orchestrator of the
Gemini-TTS-Studio application (source: the React `App` component together
with `types.ts` and `constants.ts`).

The React component state is modelled as an explicit `AppState` record;
each handler (`handleGenerate`, `incrementUsage`, `handleChangeApiKey`,
the 1-second interval callback, the daily-usage loading effect) becomes a
pure state-transformer.  The asynchronous synthesis call `generateSpeech`
is an external collaborator: its outcome is passed in as an
`Except SynthError GeneratedAudio` parameter.  `localStorage` is modelled
as a partial map from day keys to stored counts; the key string
`gemini_tts_usage_CURRENT-DATE` has a constant prefix, so the map is keyed by the
date component alone.  Wall-clock time is modelled as minutes since the
Unix epoch (UTC); `new Date().toISOString().split('T')[0]` yields the UTC
calendar date, i.e. the day index `t / 1440`.
-/

namespace GeminiTTS

/-- Generation state machine statuses (`types.ts`, `enum TTSStatus`). -/
inductive TTSStatus where
  | IDLE
  | GENERATING
  | SUCCESS
  | ERROR
  deriving DecidableEq, Repr

/-- Audio artifact returned by the synthesis collaborator
(`types.ts`, `interface GeneratedAudio`). -/
structure GeneratedAudio where
  wavUrl : String
  base64Audio : String
  deriving DecidableEq, Repr

/-- Shape of an error thrown by the synthesis call, as far as the catch
branch of `handleGenerate` inspects it: an optional textual `message`
and an optional numeric `status`. -/
structure SynthError where
  message : Option String
  status : Option Nat
  deriving DecidableEq, Repr

/-- `const DAILY_REQUEST_LIMIT = 1500` (App component). -/
def DAILY_REQUEST_LIMIT : Nat := 1500

/-- `const MINUTE_REQUEST_LIMIT = 15` (App component, RPM limit). -/
def MINUTE_REQUEST_LIMIT : Nat := 15

/-- The React component state relevant to the orchestrator: the five
`useState` cells plus the input text and the browser `localStorage`
(modelled as a partial map from UTC day index to the stored count). -/
structure AppState where
  status : TTSStatus
  text : String
  generatedAudio : Option GeneratedAudio
  errorMsg : Option String
  dailyRequests : Nat
  minuteRequests : Nat
  secondsUntilReset : Nat
  storage : Nat → Option Nat

/-- Day key used by the code: `new Date().toISOString().split('T')[0]`.
`toISOString` always renders UTC, so with `t` in minutes since the Unix
epoch this is the UTC day index `t / 1440`. -/
def todayOf (t : Nat) : Nat := t / 1440

/-- Written from the words of the specification, for comparison with
`todayOf`: the *local* calendar date at instant `t` for a clock running
`tzOffsetMinutes` ahead of UTC (east of Greenwich). -/
def localCalendarDayOf (t tzOffsetMinutes : Nat) : Nat :=
  (t + tzOffsetMinutes) / 1440

/-- Denial message for empty input. -/
def emptyInputMsg : String := "Please enter some text to generate speech."

/-- Denial message for the daily limit. -/
def dailyLimitMsg : String :=
  "Daily limit reached (1500). Please try tomorrow or use a paid key."

/-- Denial message for the minute limit (interpolates the countdown). -/
def minuteLimitMsg (secs : Nat) : String :=
  "Speed limit reached! Please wait " ++ toString secs ++
    " seconds for the minute quota to reset."

/-- Message shown for an upstream quota error. -/
def quotaExceededMsg : String :=
  "Quota exceeded (429). The system is busy. Please wait a moment."

/-- Generic fallback error message. -/
def fallbackErrorMsg : String := "Failed to generate speech. Please try again."

/-- JavaScript `String.prototype.trim`: strip leading and trailing
whitespace.  Defined structurally on the character list so that concrete
instances evaluate. -/
def jsTrim (s : String) : String :=
  String.mk
    (((s.data.dropWhile Char.isWhitespace).reverse.dropWhile
        Char.isWhitespace).reverse)

/-- Boolean check that `pat` occurs as a contiguous sublist of `l`
(JavaScript `String.prototype.includes`). -/
def listContains (pat : List Char) : List Char → Bool
  | [] => pat.isEmpty
  | c :: cs => pat.isPrefixOf (c :: cs) || listContains pat cs

/-- `s.includes pat` on strings. -/
def strContains (s pat : String) : Bool := listContains pat.toList s.toList

/-- The quota-error test of the catch branch:
`err.message?.includes('429') || err.status === 429 ||
 err.message?.includes('RESOURCE_EXHAUSTED')`. -/
def isQuotaError (err : SynthError) : Bool :=
  (match err.message with
    | some m => strContains m "429"
    | none => false) ||
  (err.status == some 429) ||
  (match err.message with
    | some m => strContains m "RESOURCE_EXHAUSTED"
    | none => false)

/-- `incrementUsage` from the App component: recomputes the day key at the
moment of the call, bumps the daily counter, persists the new daily count
under that key, and bumps the minute counter.  Neither addition clamps. -/
def incrementUsage (t : Nat) (s : AppState) : AppState :=
  let today := todayOf t
  let newDailyCount := s.dailyRequests + 1
  { s with
      dailyRequests := newDailyCount
      storage := fun k => if k = today then some newDailyCount else s.storage k
      minuteRequests := s.minuteRequests + 1 }

/-- `handleGenerate` from the App component.  `t` is the current time in
minutes since the epoch; `outcome` is the settled result of the
`generateSpeech` collaborator call.  Returns the new state together with
a flag recording whether the synthesis collaborator was invoked. -/
def handleGenerate (t : Nat) (outcome : Except SynthError GeneratedAudio)
    (s : AppState) : AppState × Bool :=
  if jsTrim s.text = "" then
    ({ s with errorMsg := some emptyInputMsg }, false)
  else if DAILY_REQUEST_LIMIT ≤ s.dailyRequests then
    ({ s with errorMsg := some dailyLimitMsg }, false)
  else if MINUTE_REQUEST_LIMIT ≤ s.minuteRequests then
    ({ s with errorMsg := some (minuteLimitMsg s.secondsUntilReset) }, false)
  else
    let s1 := { s with
                  errorMsg := none
                  status := TTSStatus.GENERATING
                  generatedAudio := none }
    match outcome with
    | Except.ok result =>
        (incrementUsage t
          { s1 with generatedAudio := some result, status := TTSStatus.SUCCESS },
         true)
    | Except.error err =>
        let s2 := { s1 with status := TTSStatus.ERROR }
        if isQuotaError err then
          ({ s2 with errorMsg := some quotaExceededMsg }, true)
        else
          ({ s2 with
               errorMsg := some (match err.message with
                 | some m => if m = "" then fallbackErrorMsg else m
                 | none => fallbackErrorMsg) }, true)

/-- The 1-second interval callback of the initialization effect: decrement
the countdown; when it would drop below 1, reset the minute counter to 0
and the countdown to 60 in the same step. -/
def tick (s : AppState) : AppState :=
  if s.secondsUntilReset ≤ 1 then
    { s with minuteRequests := 0, secondsUntilReset := 60 }
  else
    { s with secondsUntilReset := s.secondsUntilReset - 1 }

/-- `n` consecutive clock ticks. -/
def ticks : Nat → AppState → AppState
  | 0, s => s
  | n + 1, s => ticks n (tick s)

/-- The daily-usage loading effect: read the record stored under today's
key; if present, parse it into the daily counter, otherwise 0. -/
def loadDailyUsage (t : Nat) (s : AppState) : AppState :=
  match s.storage (todayOf t) with
  | some v => { s with dailyRequests := v }
  | none => { s with dailyRequests := 0 }

/-- `handleChangeApiKey` from the App component.  `keySelectorAvailable`
models `window.aistudio?.openSelectKey` being present.  When available:
clear the error, return to IDLE, zero both counters, restart the
countdown, and remove today's persisted record.  Otherwise only an alert
is shown and the state is untouched. -/
def handleChangeApiKey (keySelectorAvailable : Bool) (t : Nat)
    (s : AppState) : AppState :=
  if keySelectorAvailable then
    { s with
        errorMsg := none
        status := TTSStatus.IDLE
        dailyRequests := 0
        minuteRequests := 0
        secondsUntilReset := 60
        storage := fun k => if k = todayOf t then none else s.storage k }
  else
    s

/-- Empty `localStorage`. -/
def emptyStorage : Nat → Option Nat := fun _ => none

/-- A sample audio artifact for concrete instantiations. -/
def sampleAudio : GeneratedAudio :=
  { wavUrl := "blob:audio.wav", base64Audio := "UklGRg" }

/-- A fresh state with non-empty input text. -/
def idleState : AppState :=
  { status := TTSStatus.IDLE
    text := "Hello world"
    generatedAudio := none
    errorMsg := none
    dailyRequests := 0
    minuteRequests := 0
    secondsUntilReset := 60
    storage := emptyStorage }

/-- Claim C1: admission is decided in the fixed order empty-input, then
daily limit, then minute limit, each denial carrying its own reason and
making no synthesis call; whenever the trimmed text is non-empty,
`dailyRequests < 1500` and `minuteRequests < 15`, the call is admitted
and the synthesis collaborator is invoked. -/
theorem handleGenerate_admission_order (t : Nat)
    (o : Except SynthError GeneratedAudio) (s : AppState) :
    (jsTrim s.text = "" →
      handleGenerate t o s = ({ s with errorMsg := some emptyInputMsg }, false)) ∧
    (jsTrim s.text ≠ "" → DAILY_REQUEST_LIMIT ≤ s.dailyRequests →
      handleGenerate t o s = ({ s with errorMsg := some dailyLimitMsg }, false)) ∧
    (jsTrim s.text ≠ "" → s.dailyRequests < DAILY_REQUEST_LIMIT →
      MINUTE_REQUEST_LIMIT ≤ s.minuteRequests →
      handleGenerate t o s
        = ({ s with errorMsg := some (minuteLimitMsg s.secondsUntilReset) },
           false)) ∧
    (jsTrim s.text ≠ "" → s.dailyRequests < DAILY_REQUEST_LIMIT →
      s.minuteRequests < MINUTE_REQUEST_LIMIT →
      (handleGenerate t o s).2 = true) := by
  refine ⟨fun h1 => ?_, fun h1 h2 => ?_, fun h1 h2 h3 => ?_, fun h1 h2 h3 => ?_⟩
  · simp [handleGenerate, h1]
  · simp [handleGenerate, h1, h2]
  · simp [handleGenerate, h1, Nat.not_le.mpr h2, h3]
  · cases o with
    | ok a => simp [handleGenerate, h1, Nat.not_le.mpr h2, Nat.not_le.mpr h3]
    | error e =>
        by_cases hq : isQuotaError e = true <;>
          simp [handleGenerate, h1, Nat.not_le.mpr h2, Nat.not_le.mpr h3, hq]

/-- Witness for C1: a fresh state with text `Hello world` and both
counters at 0 is admitted and the synthesis collaborator is invoked. -/
theorem handleGenerate_admission_order_witness :
    (handleGenerate 0 (Except.ok sampleAudio) idleState).2 = true :=
  (handleGenerate_admission_order 0 (Except.ok sampleAudio) idleState).2.2.2
    (by decide) (by decide) (by decide)

/-- A session state whose in-memory daily counter was filled on an
earlier day: 5 generations recorded, but the store holds no record yet
for the following day. -/
def staleDailyState : AppState := { idleState with dailyRequests := 5 }

/-- Counterexample to claim C2: the loading effect runs only at mount, so
in a session crossing UTC midnight the in-memory daily counter keeps the
old day's value while the new day has no record.  At `t = 1450` (early on
day 1) the cycle reaches synthesis, and the code persists the stale
`dailyRequests + 1 = 6` under day 1's key — the persisted count under the
dateKey resolved at increment time jumps from 0 to 6, not by exactly 1. -/
theorem handleGenerate_persisted_jump_cex :
    (handleGenerate 1450 (Except.ok sampleAudio) staleDailyState).2 = true ∧
    staleDailyState.storage (todayOf 1450) = none ∧
    (handleGenerate 1450 (Except.ok sampleAudio) staleDailyState).1.storage
      (todayOf 1450) = some 6 ∧
    (6 : Nat) ≠ 0 + 1 :=
  ⟨rfl, rfl, rfl, by decide⟩

/-- Claim C2 amended: in an admitted cycle, a successful synthesis call
increments the in-memory daily counter and the minute counter by exactly
1, stores the artifact and moves to SUCCESS, and writes the new in-memory
daily count under the dateKey resolved at increment time — an increase of
exactly 1 of the in-memory count, but of the persisted count only when
the stored record agreed with the in-memory counter (a session crossing
UTC midnight persists the stale count + 1 under the fresh key).  A failed
call changes no counter and no persisted record and moves to ERROR. -/
theorem handleGenerate_counter_effects (t : Nat) (s : AppState)
    (hT : jsTrim s.text ≠ "") (hD : s.dailyRequests < DAILY_REQUEST_LIMIT)
    (hM : s.minuteRequests < MINUTE_REQUEST_LIMIT) :
    (∀ a : GeneratedAudio,
      (handleGenerate t (Except.ok a) s).1.dailyRequests = s.dailyRequests + 1 ∧
      (handleGenerate t (Except.ok a) s).1.storage (todayOf t)
        = some (s.dailyRequests + 1) ∧
      (handleGenerate t (Except.ok a) s).1.minuteRequests
        = s.minuteRequests + 1 ∧
      (handleGenerate t (Except.ok a) s).1.generatedAudio = some a ∧
      (handleGenerate t (Except.ok a) s).1.status = TTSStatus.SUCCESS) ∧
    (∀ a : GeneratedAudio,
      s.storage (todayOf t) = some s.dailyRequests →
      ((handleGenerate t (Except.ok a) s).1.storage (todayOf t)).getD 0
        = (s.storage (todayOf t)).getD 0 + 1) ∧
    (∀ e : SynthError,
      (handleGenerate t (Except.error e) s).1.dailyRequests = s.dailyRequests ∧
      (handleGenerate t (Except.error e) s).1.storage = s.storage ∧
      (handleGenerate t (Except.error e) s).1.minuteRequests
        = s.minuteRequests ∧
      (handleGenerate t (Except.error e) s).1.status = TTSStatus.ERROR) := by
  refine ⟨?_, ?_, ?_⟩
  · intro a
    simp [handleGenerate, hT, Nat.not_le.mpr hD, Nat.not_le.mpr hM,
      incrementUsage]
  · intro a hsync
    simp [handleGenerate, hT, Nat.not_le.mpr hD, Nat.not_le.mpr hM,
      incrementUsage, hsync]
  · intro e
    by_cases hq : isQuotaError e = true <;>
      simp [handleGenerate, hT, Nat.not_le.mpr hD, Nat.not_le.mpr hM, hq]

/-- Witness for C2 amended: concrete successful cycle from the fresh
state. -/
theorem handleGenerate_counter_effects_witness :
    (handleGenerate 0 (Except.ok sampleAudio) idleState).1.dailyRequests = 1 ∧
    (handleGenerate 0 (Except.ok sampleAudio) idleState).1.storage
      (todayOf 0) = some 1 ∧
    (handleGenerate 0 (Except.ok sampleAudio) idleState).1.minuteRequests = 1 ∧
    (handleGenerate 0 (Except.ok sampleAudio) idleState).1.generatedAudio
      = some sampleAudio ∧
    (handleGenerate 0 (Except.ok sampleAudio) idleState).1.status
      = TTSStatus.SUCCESS :=
  (handleGenerate_counter_effects 0 idleState (by decide) (by decide)
    (by decide)).1 sampleAudio

/-- Claim C9: a denied generate call (empty input, daily limit, or minute
limit) only sets the error message: there is some message `m` such that
the resulting state is exactly the old state with `errorMsg := some m`
and the synthesis flag is false — so status (in particular never moved to
ERROR or GENERATING), result artifact, both counters, the countdown and
the persisted records are untouched. -/
theorem handleGenerate_denial_frame (t : Nat)
    (o : Except SynthError GeneratedAudio) (s : AppState)
    (hDenied : jsTrim s.text = "" ∨ DAILY_REQUEST_LIMIT ≤ s.dailyRequests ∨
      MINUTE_REQUEST_LIMIT ≤ s.minuteRequests) :
    ∃ m, handleGenerate t o s = ({ s with errorMsg := some m }, false) := by
  by_cases h1 : jsTrim s.text = ""
  · exact ⟨emptyInputMsg, by simp [handleGenerate, h1]⟩
  · by_cases h2 : DAILY_REQUEST_LIMIT ≤ s.dailyRequests
    · exact ⟨dailyLimitMsg, by simp [handleGenerate, h1, h2]⟩
    · by_cases h3 : MINUTE_REQUEST_LIMIT ≤ s.minuteRequests
      · exact ⟨minuteLimitMsg s.secondsUntilReset,
          by simp [handleGenerate, h1, h2, h3]⟩
      · rcases hDenied with h | h | h
        · exact absurd h h1
        · exact absurd h h2
        · exact absurd h h3

/-- Witness for C9: a daily-limit denial at 1500 leaves the state intact
apart from the error message. -/
theorem handleGenerate_denial_frame_witness :
    ∃ m, handleGenerate 0 (Except.ok sampleAudio)
        { idleState with dailyRequests := 1500 }
      = ({ { idleState with dailyRequests := 1500 } with errorMsg := some m },
         false) :=
  handleGenerate_denial_frame 0 (Except.ok sampleAudio)
    { idleState with dailyRequests := 1500 }
    (Or.inr (Or.inl (by decide)))

/-- Claim C10: when the key-selection facility is unavailable,
`handleChangeApiKey` changes nothing at all — the state (generation
status, error, result, counters, countdown, persisted records) is
returned exactly as it was. -/
theorem handleChangeApiKey_unavailable_noop (t : Nat) (s : AppState) :
    handleChangeApiKey false t s = s := rfl

/-- A state captured while a generation is in flight. -/
def generatingState : AppState := { idleState with status := TTSStatus.GENERATING }

/-- Counterexample to claim C3: `handleGenerate` never consults the
current status, so a re-entrant invocation while GENERATING is not
ignored — at this concrete input the synthesis collaborator is invoked,
the minute counter is mutated and the status is overwritten. -/
theorem handleGenerate_reentrancy_cex :
    generatingState.status = TTSStatus.GENERATING ∧
    (handleGenerate 0 (Except.ok sampleAudio) generatingState).2 = true ∧
    (handleGenerate 0 (Except.ok sampleAudio) generatingState).1.minuteRequests
      = generatingState.minuteRequests + 1 ∧
    (handleGenerate 0 (Except.ok sampleAudio) generatingState).1.status
      = TTSStatus.SUCCESS :=
  ⟨rfl, rfl, rfl, rfl⟩

/-- Claim C3 amended: the orchestrator has no internal re-entrancy guard.
A generate call arriving while the status is GENERATING runs the same
admission checks as any other call; when they pass, the synthesis
collaborator is invoked, and the whole outcome coincides with that of the
same call made from the IDLE status — re-entrancy protection rests solely
on the caller disabling the trigger while GENERATING. -/
theorem handleGenerate_no_reentrancy_guard (t : Nat)
    (o : Except SynthError GeneratedAudio) (s : AppState)
    (_hG : s.status = TTSStatus.GENERATING)
    (hT : jsTrim s.text ≠ "") (hD : s.dailyRequests < DAILY_REQUEST_LIMIT)
    (hM : s.minuteRequests < MINUTE_REQUEST_LIMIT) :
    (handleGenerate t o s).2 = true ∧
    handleGenerate t o s
      = handleGenerate t o { s with status := TTSStatus.IDLE } := by
  constructor
  · exact (handleGenerate_admission_order t o s).2.2.2 hT hD hM
  · cases o with
    | ok a =>
        simp [handleGenerate, hT, Nat.not_le.mpr hD, Nat.not_le.mpr hM]
    | error e =>
        by_cases hq : isQuotaError e = true <;>
          simp [handleGenerate, hT, Nat.not_le.mpr hD, Nat.not_le.mpr hM, hq]

/-- Witness for C3 amended: concrete re-entrant call from the
mid-generation state. -/
theorem handleGenerate_no_reentrancy_guard_witness :
    (handleGenerate 0 (Except.ok sampleAudio) generatingState).2 = true ∧
    handleGenerate 0 (Except.ok sampleAudio) generatingState
      = handleGenerate 0 (Except.ok sampleAudio)
          { generatingState with status := TTSStatus.IDLE } :=
  handleGenerate_no_reentrancy_guard 0 (Except.ok sampleAudio)
    generatingState rfl (by decide) (by decide) (by decide)

/-- A state with the minute counter exactly at the limit. -/
def fullMinuteState : AppState :=
  { idleState with minuteRequests := MINUTE_REQUEST_LIMIT }

/-- Counterexample to claim C4: the increment operation does not saturate
at the minute limit — invoked at a count of 15 it yields 16, not
`min (15 + 1) 15 = 15`. -/
theorem incrementUsage_not_saturating_cex :
    (incrementUsage 0 fullMinuteState).minuteRequests = 16 ∧
    (incrementUsage 0 fullMinuteState).minuteRequests
      ≠ min (fullMinuteState.minuteRequests + 1) MINUTE_REQUEST_LIMIT :=
  ⟨rfl, by decide⟩

/-- Claim C4 amended: the increment operation adds exactly 1 with no
clamping; nevertheless the minute count never exceeds the limit along the
program's own operations, because `handleGenerate` only increments after
admission has ensured the count is strictly below the limit, and a tick
never increases the count — so the bound `minuteRequests ≤ 15` is
preserved by every generate call and every tick. -/
theorem minuteRequests_limit_invariant (t : Nat)
    (o : Except SynthError GeneratedAudio) (s : AppState)
    (h : s.minuteRequests ≤ MINUTE_REQUEST_LIMIT) :
    (incrementUsage t s).minuteRequests = s.minuteRequests + 1 ∧
    (handleGenerate t o s).1.minuteRequests ≤ MINUTE_REQUEST_LIMIT ∧
    (tick s).minuteRequests ≤ MINUTE_REQUEST_LIMIT := by
  refine ⟨rfl, ?_, ?_⟩
  · by_cases h1 : jsTrim s.text = ""
    · simpa [handleGenerate, h1] using h
    · by_cases h2 : DAILY_REQUEST_LIMIT ≤ s.dailyRequests
      · simpa [handleGenerate, h1, h2] using h
      · by_cases h3 : MINUTE_REQUEST_LIMIT ≤ s.minuteRequests
        · simpa [handleGenerate, h1, h2, h3] using h
        · cases o with
          | ok a =>
              have hlt : s.minuteRequests < MINUTE_REQUEST_LIMIT :=
                Nat.lt_of_not_le h3
              simp only [handleGenerate, h1, h2, h3]
              simp [incrementUsage, h1, h2, h3]
              omega
          | error e =>
              by_cases hq : isQuotaError e = true <;>
                simpa [handleGenerate, h1, h2, h3, hq] using h
  · unfold tick
    split
    · simp
    · simpa using h

/-- Witness for C4 amended: from a state with the minute counter at 10,
an increment yields 11 and the bound survives a generate call and a
tick. -/
theorem minuteRequests_limit_invariant_witness :
    (incrementUsage 0 { idleState with minuteRequests := 10 }).minuteRequests
      = 11 ∧
    (handleGenerate 0 (Except.ok sampleAudio)
        { idleState with minuteRequests := 10 }).1.minuteRequests
      ≤ MINUTE_REQUEST_LIMIT ∧
    (tick { idleState with minuteRequests := 10 }).minuteRequests
      ≤ MINUTE_REQUEST_LIMIT :=
  minuteRequests_limit_invariant 0 (Except.ok sampleAudio)
    { idleState with minuteRequests := 10 } (by decide)

/-- Helper: while the countdown stays above the reset threshold, `k`
ticks subtract `k` from it and touch nothing else. -/
theorem ticks_sub : ∀ (k : Nat) (s : AppState), k + 1 ≤ s.secondsUntilReset →
    ticks k s = { s with secondsUntilReset := s.secondsUntilReset - k }
  | 0, s, _ => by simp [ticks]
  | k + 1, s, h => by
    have h2 : ¬ s.secondsUntilReset ≤ 1 := by omega
    have ht : tick s = { s with secondsUntilReset := s.secondsUntilReset - 1 } := by
      rw [tick, if_neg h2]
    have ih := ticks_sub k { s with secondsUntilReset := s.secondsUntilReset - 1 }
      (by simp; omega)
    calc ticks (k + 1) s = ticks k (tick s) := rfl
    _ = ticks k { s with secondsUntilReset := s.secondsUntilReset - 1 } := by
          rw [ht]
    _ = { s with secondsUntilReset := s.secondsUntilReset - 1 - k } := ih
    _ = { s with secondsUntilReset := s.secondsUntilReset - (k + 1) } := by
          have hs : s.secondsUntilReset - 1 - k
              = s.secondsUntilReset - (k + 1) := by omega
          rw [hs]

/-- Helper: a run of `n + 1` ticks is a run of `n` ticks followed by one
more tick. -/
theorem ticks_succ_last : ∀ (n : Nat) (s : AppState),
    ticks (n + 1) s = tick (ticks n s)
  | 0, _ => rfl
  | n + 1, s => by
    calc ticks (n + 2) s = ticks (n + 1) (tick s) := rfl
    _ = tick (ticks n (tick s)) := ticks_succ_last n (tick s)
    _ = tick (ticks (n + 1) s) := rfl

/-- Claim C5: a tick decrements the countdown, except that a tick taken
when the countdown would drop below 1 resets the minute count to 0 and
the countdown to 60 in the same step; from a state with count 0 and
countdown 60, 60 consecutive ticks return exactly the original state,
passing through 59, 58, …, 1 with the count staying 0, and the countdown
is never observable at 0 (after any tick it is at least 1). -/
theorem tick_countdown_cycle (s : AppState)
    (h0 : s.minuteRequests = 0) (h60 : s.secondsUntilReset = 60) :
    (∀ s' : AppState, 2 ≤ s'.secondsUntilReset →
      tick s' = { s' with secondsUntilReset := s'.secondsUntilReset - 1 }) ∧
    (∀ s' : AppState, s'.secondsUntilReset ≤ 1 →
      tick s' = { s' with minuteRequests := 0, secondsUntilReset := 60 }) ∧
    (∀ k, 1 ≤ k → k ≤ 59 →
      (ticks k s).secondsUntilReset = 60 - k ∧
      (ticks k s).minuteRequests = 0) ∧
    ticks 60 s = s ∧
    (∀ s' : AppState, 1 ≤ (tick s').secondsUntilReset) := by
  refine ⟨?_, ?_, ?_, ?_, ?_⟩
  · intro s' h
    rw [tick, if_neg (by omega)]
  · intro s' h
    rw [tick, if_pos h]
  · intro k hk1 hk2
    rw [ticks_sub k s (by omega)]
    exact ⟨by simp [h60], by simp [h0]⟩
  · rw [ticks_succ_last 59 s, ticks_sub 59 s (by omega)]
    rw [tick, if_pos (by simp [h60])]
    cases s with
    | mk st tx ga em dr mr su sto => simp_all
  · intro s'
    by_cases h : s'.secondsUntilReset ≤ 1
    · rw [tick, if_pos h]
      show (1 : Nat) ≤ 60
      omega
    · rw [tick, if_neg h]
      simp
      omega

/-- Witness for C5: from the fresh state, 60 ticks reproduce the state
exactly, and after 30 ticks the countdown reads 30 with the count 0. -/
theorem tick_countdown_cycle_witness :
    ticks 60 idleState = idleState ∧
    (ticks 30 idleState).secondsUntilReset = 30 ∧
    (ticks 30 idleState).minuteRequests = 0 :=
  ⟨(tick_countdown_cycle idleState rfl rfl).2.2.2.1,
   ((tick_countdown_cycle idleState rfl rfl).2.2.1 30 (by decide)
     (by decide)).1,
   ((tick_countdown_cycle idleState rfl rfl).2.2.1 30 (by decide)
     (by decide)).2⟩

/-- Counterexample to claim C6: the code resolves the day key from
`toISOString`, which renders UTC, not the local calendar date.  At
`t = 1410` minutes (23:30 UTC on day 0) with a local clock 60 minutes
ahead of UTC, the local calendar date is day 1, yet the increment is
recorded under the UTC day 0 and nothing under the local day 1. -/
theorem dateKey_not_local_cex :
    todayOf 1410 ≠ localCalendarDayOf 1410 60 ∧
    (incrementUsage 1410 idleState).storage (localCalendarDayOf 1410 60)
      = none ∧
    (incrementUsage 1410 idleState).storage (todayOf 1410) = some 1 :=
  ⟨by decide, rfl, rfl⟩

/-- Claim C6 amended: the day key is derived from the current UTC
calendar date at the moment of each operation (not cached), so a
long-running session rolls over at UTC midnight with no restart: an
increment at time `t` is recorded under `t`'s day, the record for the
next day stays absent, and loading at a time `t'` on the next day yields
a fresh daily count of 0 while the value under `t`'s day is preserved. -/
theorem dailyKey_per_operation_rollover (t tNext : Nat) (s : AppState)
    (h : todayOf tNext = todayOf t + 1)
    (hfresh : s.storage (todayOf tNext) = none) :
    (incrementUsage t s).storage (todayOf t) = some (s.dailyRequests + 1) ∧
    (incrementUsage t s).storage (todayOf tNext) = none ∧
    (loadDailyUsage tNext (incrementUsage t s)).dailyRequests = 0 := by
  have hne : todayOf tNext ≠ todayOf t := by omega
  refine ⟨by simp [incrementUsage], ?_, ?_⟩
  · simp [incrementUsage, hne, hfresh]
  · simp [loadDailyUsage, incrementUsage, hne, hfresh]

/-- Witness for C6 amended: increment at minute 0 of day 0, reload at
minute 0 of day 1. -/
theorem dailyKey_per_operation_rollover_witness :
    (incrementUsage 0 idleState).storage (todayOf 0) = some 1 ∧
    (incrementUsage 0 idleState).storage (todayOf 1440) = none ∧
    (loadDailyUsage 1440 (incrementUsage 0 idleState)).dailyRequests = 0 :=
  dailyKey_per_operation_rollover 0 1440 idleState (by decide) rfl

/-- A mid-session state holding a generated result, an error message and
partially consumed quotas. -/
def sessionState : AppState :=
  { idleState with
      status := TTSStatus.SUCCESS
      generatedAudio := some sampleAudio
      errorMsg := some "previous message"
      dailyRequests := 800
      minuteRequests := 10
      secondsUntilReset := 42
      storage := fun k => if k = 0 then some 800 else none }

/-- Counterexample to claim C7: after a credential rotation with the
key-selection facility available, the current result artifact is NOT
cleared — it still holds the old audio. -/
theorem rotateCredential_result_not_cleared_cex :
    (handleChangeApiKey true 0 sessionState).generatedAudio
      = some sampleAudio ∧
    (handleChangeApiKey true 0 sessionState).generatedAudio ≠ none :=
  ⟨rfl, by decide⟩

/-- Claim C7 amended: after a credential rotation with the key-selection
facility available, the status is IDLE, the error is cleared, the daily
count reads 0, the minute count reads 0 with the countdown back at 60,
and the persisted daily record for the current date is removed — but the
current result artifact is left exactly as it was (it is not cleared). -/
theorem handleChangeApiKey_resets (t : Nat) (s : AppState) :
    (handleChangeApiKey true t s).status = TTSStatus.IDLE ∧
    (handleChangeApiKey true t s).errorMsg = none ∧
    (handleChangeApiKey true t s).dailyRequests = 0 ∧
    (handleChangeApiKey true t s).minuteRequests = 0 ∧
    (handleChangeApiKey true t s).secondsUntilReset = 60 ∧
    (handleChangeApiKey true t s).storage (todayOf t) = none ∧
    (handleChangeApiKey true t s).generatedAudio = s.generatedAudio :=
  ⟨rfl, rfl, rfl, rfl, rfl, by simp [handleChangeApiKey], rfl⟩

/-- An error whose message is present but empty. -/
def emptyMsgError : SynthError := { message := some "", status := none }

/-- Counterexample to claim C8: an error carrying the empty string as its
message has a message present, yet it is surfaced with the generic
fallback rather than with its original message, because the code tests
the message with JavaScript truthiness. -/
theorem classifier_empty_message_cex :
    emptyMsgError.message = some "" ∧
    isQuotaError emptyMsgError = false ∧
    (handleGenerate 0 (Except.error emptyMsgError) idleState).1.errorMsg
      = some fallbackErrorMsg ∧
    fallbackErrorMsg ≠ "" :=
  ⟨rfl, rfl, rfl, by decide⟩

/-- Claim C8 amended: a failing admitted cycle always ends in ERROR with
both counters and the persisted records untouched; the error is treated
as quota-exceeded exactly when its message contains "429", its status
equals 429, or its message contains the RESOURCE_EXHAUSTED marker; any
other error is surfaced with its original message when that message is
non-empty, and with the generic fallback when the message is absent or
empty. -/
theorem handleGenerate_error_classification (t : Nat) (err : SynthError)
    (s : AppState) (hT : jsTrim s.text ≠ "")
    (hD : s.dailyRequests < DAILY_REQUEST_LIMIT)
    (hM : s.minuteRequests < MINUTE_REQUEST_LIMIT) :
    (handleGenerate t (Except.error err) s).1.status = TTSStatus.ERROR ∧
    (handleGenerate t (Except.error err) s).1.dailyRequests
      = s.dailyRequests ∧
    (handleGenerate t (Except.error err) s).1.minuteRequests
      = s.minuteRequests ∧
    (handleGenerate t (Except.error err) s).1.storage = s.storage ∧
    (isQuotaError err = true ↔
      ((∃ m, err.message = some m ∧ strContains m "429" = true) ∨
        err.status = some 429 ∨
        (∃ m, err.message = some m ∧
          strContains m "RESOURCE_EXHAUSTED" = true))) ∧
    (isQuotaError err = true →
      (handleGenerate t (Except.error err) s).1.errorMsg
        = some quotaExceededMsg) ∧
    (isQuotaError err = false → ∀ m, err.message = some m → m ≠ "" →
      (handleGenerate t (Except.error err) s).1.errorMsg = some m) ∧
    (isQuotaError err = false →
      (err.message = none ∨ err.message = some "") →
      (handleGenerate t (Except.error err) s).1.errorMsg
        = some fallbackErrorMsg) := by
  refine ⟨?_, ?_, ?_, ?_, ?_, ?_, ?_, ?_⟩
  · by_cases hq : isQuotaError err = true <;>
      simp [handleGenerate, hT, Nat.not_le.mpr hD, Nat.not_le.mpr hM, hq]
  · by_cases hq : isQuotaError err = true <;>
      simp [handleGenerate, hT, Nat.not_le.mpr hD, Nat.not_le.mpr hM, hq]
  · by_cases hq : isQuotaError err = true <;>
      simp [handleGenerate, hT, Nat.not_le.mpr hD, Nat.not_le.mpr hM, hq]
  · by_cases hq : isQuotaError err = true <;>
      simp [handleGenerate, hT, Nat.not_le.mpr hD, Nat.not_le.mpr hM, hq]
  · cases hm : err.message with
    | none => simp [isQuotaError, hm, beq_iff_eq]
    | some m => simp [isQuotaError, hm, beq_iff_eq, or_assoc]
  · intro hq
    simp [handleGenerate, hT, Nat.not_le.mpr hD, Nat.not_le.mpr hM, hq]
  · intro hq m hm hne
    simp [handleGenerate, hT, Nat.not_le.mpr hD, Nat.not_le.mpr hM, hq,
      hm, hne]
  · intro hq hcase
    rcases hcase with hm | hm <;>
      simp [handleGenerate, hT, Nat.not_le.mpr hD, Nat.not_le.mpr hM, hq, hm]

/-- Witness for C8 amended: an error with message `boom` (no quota
marker) ends in ERROR with the original message surfaced and the counters
untouched. -/
theorem handleGenerate_error_classification_witness :
    (handleGenerate 0 (Except.error { message := some "boom", status := none })
        idleState).1.status = TTSStatus.ERROR ∧
    (handleGenerate 0 (Except.error { message := some "boom", status := none })
        idleState).1.minuteRequests = 0 ∧
    (handleGenerate 0 (Except.error { message := some "boom", status := none })
        idleState).1.errorMsg = some "boom" :=
  ⟨(handleGenerate_error_classification 0
      { message := some "boom", status := none } idleState (by decide)
      (by decide) (by decide)).1,
   (handleGenerate_error_classification 0
      { message := some "boom", status := none } idleState (by decide)
      (by decide) (by decide)).2.2.1,
   (handleGenerate_error_classification 0
      { message := some "boom", status := none } idleState (by decide)
      (by decide) (by decide)).2.2.2.2.2.2.1 rfl "boom" rfl (by decide)⟩

end GeminiTTS
